import Mathlib

/-!
Shallow embedding of the data pipeline of `src/dashboard.py`
(gm0202/indiancrimeanalysis).

The dashboard's reusable core is:
  * `load_data` (lines 138-151): read two CSV sources, concatenate them with
    `pd.concat`, parse the `YEAR` column to an integer year, and strip
    leading/trailing whitespace from `STATE/UT` and `DISTRICT`;
  * the fixed `crime_types` label-to-column mapping (lines 157-168);
  * three aggregations over the unified table and the sidebar selection:
    `state_data` (lines 218-223), `yearly_data` (line 248) and
    `category_data` (lines 270-272).

A dataframe is modelled as a list of rows plus the list of crime-count
column names it carries; a row holds the `STATE/UT`, `DISTRICT` and `YEAR`
values and an association list from crime-column name to integer count.
Pandas raising `KeyError` on a missing column is modelled by the
aggregations returning `Except.error`; the spec names the missing-crime-
column case `UnknownCrimeColumnError`.
-/

namespace CrimeDashboard

/-- Decidable equality for `Except`, used to evaluate the aggregation
results on concrete inputs. -/
instance {ε α : Type} [DecidableEq ε] [DecidableEq α] : DecidableEq (Except ε α) := fun x y =>
  match x, y with
  | Except.ok a, Except.ok b =>
      if h : a = b then isTrue (by rw [h]) else isFalse (by intro hh; cases hh; exact h rfl)
  | Except.error a, Except.error b =>
      if h : a = b then isTrue (by rw [h]) else isFalse (by intro hh; cases hh; exact h rfl)
  | Except.ok _, Except.error _ => isFalse (by intro hh; cases hh)
  | Except.error _, Except.ok _ => isFalse (by intro hh; cases hh)

/-- Character-level strip mirroring pandas `Series.str.strip()` (Python
`str.strip`): remove leading and trailing whitespace characters. -/
def stripChars (l : List Char) : List Char :=
  ((l.dropWhile Char.isWhitespace).reverse.dropWhile Char.isWhitespace).reverse

/-- String form of `stripChars`, the embedding of `.str.strip()` applied to
one cell of the `STATE/UT` or `DISTRICT` column. -/
def pyStrip (s : String) : String :=
  String.mk (stripChars s.data)

/-- Boolean check that a character list has no leading and no trailing
whitespace (the postcondition the spec states for `state` and `district`). -/
def trimmedChars (l : List Char) : Bool :=
  (match l.head? with
   | none => true
   | some c => !c.isWhitespace) &&
  (match l.reverse.head? with
   | none => true
   | some c => !c.isWhitespace)

/-- String form of `trimmedChars`. -/
def trimmed (s : String) : Bool :=
  trimmedChars s.data

/-- One row of a source CSV or of the unified table: the `STATE/UT`,
`DISTRICT` and `YEAR` cells plus the crime-count cells, keyed by raw
column name. The `YEAR` cell of the sources is numeric, and
`pd.to_datetime(ipc_data[&YEAR&], format=&%Y&).dt.year` is the identity on
an in-range numeric year, so `year` is carried as an integer throughout. -/
structure Row where
  state : String
  district : String
  year : Int
  counts : List (String × Int)
deriving DecidableEq

/-- Crime-count cell of a row, by raw column name. A dataframe gives every
row a value in every column it carries; rows of a well-formed table have an
entry for every column of the table, and absent columns are detected at the
table level (`Table.cols`), not here. -/
def Row.getVal (r : Row) (c : String) : Int :=
  match r.counts.lookup c with
  | some v => v
  | none => 0

/-- The unified dataframe: the crime-count columns it carries and its rows. -/
structure Table where
  cols : List String
  rows : List Row
deriving DecidableEq

/-- The sidebar selection: `selected_year`, `selected_state` (a state name
or the literal `All`), and `selected_crime` (a human-readable label, a key
of `crime_types`). -/
structure Selection where
  year : Int
  state : String
  crimeType : String
deriving DecidableEq

/-- Embedding of `load_data` (src/dashboard.py lines 138-151): the two CSV
reads become the two input row lists, `pd.concat` is list append, the year
parse is the identity on the numeric `YEAR` cells, and `.str.strip()` is
`pyStrip` on `STATE/UT` and `DISTRICT`. -/
def load_data (ipc_2001_2012 ipc_2013 : List Row) : List Row :=
  (ipc_2001_2012 ++ ipc_2013).map (fun r =>
    { state := pyStrip r.state
      district := pyStrip r.district
      year := r.year
      counts := r.counts })

/-- The fixed `crime_types` mapping (src/dashboard.py lines 157-168), in
source order: human-readable label to raw column name. -/
def crime_types : List (String × String) :=
  [("Murder", "MURDER"),
   ("Rape", "RAPE"),
   ("Kidnapping & Abduction", "KIDNAPPING & ABDUCTION"),
   ("Robbery", "ROBBERY"),
   ("Burglary", "BURGLARY"),
   ("Theft", "THEFT"),
   ("Riots", "RIOTS"),
   ("Dowry Deaths", "DOWRY DEATHS"),
   ("Assault on Women", "ASSAULT ON WOMEN WITH INTENT TO OUTRAGE HER MODESTY"),
   ("Cruelty by Husband", "CRUELTY BY HUSBAND OR HIS RELATIVES")]

/-- Embedding of the Python dict lookup `crime_types[selected_crime]`. -/
def lookupCrimeCol (label : String) : Option String :=
  (crime_types.find? (fun p => p.1 == label)).map (fun p => p.2)

/-- The filtering step of `state_data` (src/dashboard.py lines 218-220):
keep the rows of the selected year, and when the selected state is not
`All`, keep only the rows of that state. -/
def filteredRows (t : Table) (sel : Selection) : List Row :=
  if sel.state ≠ ("All" : String) then
    (t.rows.filter (fun r => r.year == sel.year)).filter (fun r => r.state == sel.state)
  else t.rows.filter (fun r => r.year == sel.year)

/-- Embedding of `groupby` over a string key followed by `.sum()` on one
column: one output pair per distinct key value, carrying the sum of the
column over the rows with that key. -/
def groupSumByState (rows : List Row) (col : String) : List (String × Int) :=
  ((rows.map Row.state).dedup).map (fun s =>
    (s, ((rows.filter (fun r => r.state == s)).map (fun r => r.getVal col)).sum))

/-- Same as `groupSumByState` with the integer `YEAR` column as key. -/
def groupSumByYear (rows : List Row) (col : String) : List (Int × Int) :=
  ((rows.map Row.year).dedup).map (fun y =>
    (y, ((rows.filter (fun r => r.year == y)).map (fun r => r.getVal col)).sum))

/-- Embedding of `state_data` (src/dashboard.py lines 218-223): filter by
year and (unless `All`) by state, group by `STATE/UT`, sum the column named
by the selected crime type. A missing dict key or a missing dataframe
column raises `KeyError` in pandas; the spec calls the missing-column case
`UnknownCrimeColumnError`, and it is modelled as that error value. -/
def state_data (t : Table) (sel : Selection) : Except String (List (String × Int)) :=
  match lookupCrimeCol sel.crimeType with
  | none => Except.error ("KeyError")
  | some col =>
      if col ∈ t.cols then
        Except.ok (groupSumByState (filteredRows t sel) col)
      else Except.error ("UnknownCrimeColumnError")

/-- Embedding of `yearly_data` (src/dashboard.py line 248): group the
entire unfiltered table by `YEAR` and sum the selected crime column. -/
def yearly_data (t : Table) (sel : Selection) : Except String (List (Int × Int)) :=
  match lookupCrimeCol sel.crimeType with
  | none => Except.error ("KeyError")
  | some col =>
      if col ∈ t.cols then
        Except.ok (groupSumByYear t.rows col)
      else Except.error ("UnknownCrimeColumnError")

/-- Embedding of `category_data` (src/dashboard.py lines 270-272):
`data[list(crime_types.values())].sum()` sums every fixed crime column over
the entire unfiltered table (raising `KeyError` when any of the ten columns
is absent), and the result is re-keyed by the human-readable labels of
`crime_types`, in the mapping's order. The selection is ignored. -/
def category_data (t : Table) (_sel : Selection) : Except String (List (String × Int)) :=
  if ∀ p ∈ crime_types, p.2 ∈ t.cols then
    Except.ok (crime_types.map (fun p =>
      (p.1, (t.rows.map (fun r => r.getVal p.2)).sum)))
  else Except.error ("UnknownCrimeColumnError")

/-- The raw column names of the ten crime categories, in mapping order. -/
def allCrimeCols : List String := crime_types.map (fun p => p.2)

/-- First row of the spec's worked example: Maharashtra, 2013, MURDER=10. -/
def mahaRow1 : Row :=
  { state := "Maharashtra", district := "Mumbai", year := 2013
    counts := [("MURDER", 10)] }

/-- Second row of the spec's worked example: Maharashtra, 2013, MURDER=5. -/
def mahaRow2 : Row :=
  { state := "Maharashtra", district := "Pune", year := 2013
    counts := [("MURDER", 5)] }

/-- The spec's worked-example table: the two Maharashtra rows, with all ten
crime columns present. -/
def exampleTable : Table :=
  { cols := allCrimeCols, rows := [mahaRow1, mahaRow2] }

/-- The worked-example selection: year 2013, all states, crime type
Murder. -/
def exampleSelection : Selection :=
  { year := 2013, state := "All", crimeType := "Murder" }

/-- The spec's edge-case selection: a state absent from the data. -/
def nowhereSelection : Selection :=
  { year := 2013, state := "Nowhere", crimeType := "Murder" }

/-- A selection that picks a single concrete state. -/
def mahaSelection : Selection :=
  { year := 2013, state := "Maharashtra", crimeType := "Murder" }

/-- A selection differing from the example in year and state only. -/
def murder2001Selection : Selection :=
  { year := 2001, state := "Maharashtra", crimeType := "Murder" }

/-- A selection differing from the example in every field. -/
def theftSelection : Selection :=
  { year := 2005, state := "Goa", crimeType := "Theft" }

/-- A malformed table carrying no crime columns at all. -/
def noMurderTable : Table :=
  { cols := [], rows := [mahaRow1] }

/-- A raw source row with untrimmed state and district cells. -/
def wsRow : Row :=
  { state := "  Maharashtra ", district := " Mumbai ", year := 2013
    counts := [("MURDER", 10)] }

/-- The row `wsRow` becomes after loading: both string cells trimmed. -/
def wsRowLoaded : Row :=
  { state := "Maharashtra", district := "Mumbai", year := 2013
    counts := [("MURDER", 10)] }

/-! Helper lemmas about filtering, grouping and stripping. -/

/-- Splitting a summed map along a Boolean predicate. -/
lemma sum_map_filter_split (p : Row → Bool) (f : Row → Int) (l : List Row) :
    ((l.filter p).map f).sum + ((l.filter (fun r => !(p r))).map f).sum = (l.map f).sum := by
  induction l with
  | nil => simp
  | cons a t ih =>
    cases hpa : p a <;> simp [List.filter_cons, hpa, List.sum_cons] <;> omega

/-- Summing per-key sums over a duplicate-free covering key list gives the
total sum: the groups of a groupby partition the rows. -/
lemma sum_over_partition (f : Row → Int) (keyOf : Row → String) :
    ∀ (keys : List String) (rows : List Row), keys.Nodup →
      (∀ r ∈ rows, keyOf r ∈ keys) →
      (keys.map (fun s => ((rows.filter (fun r => keyOf r == s)).map f).sum)).sum
        = (rows.map f).sum := by
  intro keys
  induction keys with
  | nil =>
    intro rows _ hcov
    have hrows : rows = [] := by
      cases rows with
      | nil => rfl
      | cons r rs => exact absurd (hcov r (List.mem_cons_self r rs)) (List.not_mem_nil _)
    subst hrows; simp
  | cons s ks ih =>
    intro rows hnd hcov
    have hs : s ∉ ks := (List.nodup_cons.mp hnd).1
    have hks : ks.Nodup := (List.nodup_cons.mp hnd).2
    have hstep : ∀ s' ∈ ks,
        rows.filter (fun r => keyOf r == s')
          = (rows.filter (fun r => !(keyOf r == s))).filter (fun r => keyOf r == s') := by
      intro s' hs'
      rw [List.filter_filter]
      apply List.filter_congr
      intro r _
      cases h : (keyOf r == s')
      · simp
      · have heq : keyOf r = s' := by simpa using h
        have hne : (keyOf r == s) = false := by
          rw [heq]
          simp only [beq_eq_false_iff_ne, ne_eq]
          intro hss; exact hs (hss ▸ hs')
        simp [hne]
    rw [List.map_cons, List.sum_cons]
    have hmap : ks.map (fun s' => ((rows.filter (fun r => keyOf r == s')).map f).sum)
        = ks.map (fun s' =>
            (((rows.filter (fun r => !(keyOf r == s))).filter (fun r => keyOf r == s')).map f).sum) := by
      apply List.map_congr_left
      intro s' hs'
      rw [hstep s' hs']
    rw [hmap]
    rw [ih (rows.filter (fun r => !(keyOf r == s))) hks ?cov]
    · exact sum_map_filter_split (fun r => keyOf r == s) f rows
    case cov =>
      intro r hr
      rcases List.mem_filter.mp hr with ⟨hr0, hneq⟩
      rcases List.mem_cons.mp (hcov r hr0) with h1 | h2
      · rw [h1] at hneq; simp at hneq
      · exact h2

/-- The keys of `groupSumByState` are the distinct states in order. -/
lemma map_fst_groupSumByState (rows : List Row) (col : String) :
    (groupSumByState rows col).map Prod.fst = (rows.map Row.state).dedup := by
  unfold groupSumByState
  rw [List.map_map]
  exact (List.map_congr_left (fun s _ => rfl)).trans (List.map_id _)

/-- The values of `groupSumByState` sum to the column total over the rows. -/
lemma sum_groupSumByState (rows : List Row) (col : String) :
    ((groupSumByState rows col).map Prod.snd).sum
      = (rows.map (fun r => r.getVal col)).sum := by
  unfold groupSumByState
  rw [List.map_map]
  have hcomp : (Prod.snd ∘ fun s =>
      (s, ((rows.filter (fun r => r.state == s)).map (fun r => r.getVal col)).sum))
      = fun s => ((rows.filter (fun r => r.state == s)).map (fun r => r.getVal col)).sum := rfl
  rw [hcomp]
  exact sum_over_partition (fun r => r.getVal col) Row.state ((rows.map Row.state).dedup) rows
    (List.nodup_dedup _) (fun r hr => List.mem_dedup.mpr (List.mem_map.mpr ⟨r, hr, rfl⟩))

/-- Membership in `groupSumByState`: a pair is present exactly when its key
is a state of some row and its value is the group sum of that state. -/
lemma mem_groupSumByState {rows : List Row} {col : String} {s : String} {v : Int} :
    (s, v) ∈ groupSumByState rows col ↔
      (s ∈ rows.map Row.state ∧
        v = ((rows.filter (fun r => r.state == s)).map (fun r => r.getVal col)).sum) := by
  unfold groupSumByState
  rw [List.mem_map]
  constructor
  · rintro ⟨s', hs', heq⟩
    injection heq with h1 h2
    subst h1; subst h2
    exact ⟨List.mem_dedup.mp hs', rfl⟩
  · rintro ⟨hmem, rfl⟩
    exact ⟨s, List.mem_dedup.mpr hmem, rfl⟩

/-- A duplicate-free list whose elements are all equal has length at most
one. -/
lemma length_le_one_of_nodup_all_eq {l : List String} {a : String}
    (hnd : l.Nodup) (h : ∀ x ∈ l, x = a) : l.length ≤ 1 := by
  cases l with
  | nil => simp
  | cons x t =>
    cases t with
    | nil => simp
    | cons y t' =>
      have hx : x = a := h x (by simp)
      have hy : y = a := h y (by simp)
      have hxy : x ≠ y := by
        intro he
        exact (List.nodup_cons.mp hnd).1 (he ▸ List.mem_cons_self y t')
      exact absurd (hx.trans hy.symm) hxy

/-- The head of a `dropWhile` result never satisfies the predicate. -/
lemma head?_dropWhile_false (p : Char → Bool) :
    ∀ (l : List Char) (c : Char), (l.dropWhile p).head? = some c → p c = false := by
  intro l
  induction l with
  | nil => intro c h; simp [List.dropWhile] at h
  | cons a t ih =>
    intro c h
    rw [List.dropWhile_cons] at h
    cases hpa : p a with
    | true => rw [hpa] at h; simp at h; exact ih c h
    | false =>
      rw [hpa] at h; simp at h
      exact h ▸ hpa

/-- When a `dropWhile` result is nonempty its last element is the last
element of the original list. -/
lemma getLast?_dropWhile (p : Char → Bool) :
    ∀ (l : List Char), l.dropWhile p ≠ [] → (l.dropWhile p).getLast? = l.getLast? := by
  intro l
  induction l with
  | nil => intro h; simp [List.dropWhile] at h
  | cons a t ih =>
    intro h
    rw [List.dropWhile_cons] at h ⊢
    cases hpa : p a with
    | true =>
      rw [hpa] at h
      rw [if_pos rfl] at h ⊢
      cases t with
      | nil => simp [List.dropWhile] at h
      | cons b t' =>
        rw [List.getLast?_cons_cons]
        exact ih h
    | false =>
      rw [hpa] at h
      rw [if_neg (by simp)] at h ⊢

/-- The stripped list has no trailing whitespace. -/
lemma stripChars_trailing (l : List Char) (d : Char) :
    (stripChars l).reverse.head? = some d → d.isWhitespace = false := by
  unfold stripChars
  rw [List.reverse_reverse]
  exact head?_dropWhile_false _ _ d

/-- The stripped list has no leading whitespace. -/
lemma stripChars_leading (l : List Char) (d : Char) :
    (stripChars l).head? = some d → d.isWhitespace = false := by
  unfold stripChars
  rw [List.head?_reverse]
  intro h
  have hne : (l.dropWhile Char.isWhitespace).reverse.dropWhile Char.isWhitespace ≠ [] := by
    intro he; rw [he] at h; simp at h
  rw [getLast?_dropWhile _ _ hne, List.getLast?_reverse] at h
  exact head?_dropWhile_false _ _ d h

/-- Stripping yields a trimmed character list. -/
lemma trimmedChars_stripChars (l : List Char) : trimmedChars (stripChars l) = true := by
  unfold trimmedChars
  rcases h1 : (stripChars l).head? with _ | d1 <;>
    rcases h2 : (stripChars l).reverse.head? with _ | d2 <;>
      simp [h1, h2]
  · exact Bool.not_eq_true _ ▸ (by simp [stripChars_trailing l d2 h2])
  · simp [stripChars_leading l d1 h1]
  · constructor
    · simp [stripChars_leading l d1 h1]
    · simp [stripChars_trailing l d2 h2]

/-- Stripping yields a trimmed string. -/
lemma trimmed_pyStrip (s : String) : trimmed (pyStrip s) = true :=
  trimmedChars_stripChars s.data

/-! Claim theorems. -/

/-- C1: `state_data` keeps exactly the rows whose year equals the selected
year (and, when the selected state is not `All`, whose state equals the
selected state), groups the kept rows by state, and sums the selected
crime column, yielding one row per distinct state present after filtering;
on the spec's two-row Maharashtra example it yields exactly
`{Maharashtra: 15}`. -/
theorem state_data_spec (t : Table) (sel : Selection) (col : String)
    (hcol : lookupCrimeCol sel.crimeType = some col) (hmem : col ∈ t.cols) :
    ∃ l, state_data t sel = Except.ok l ∧
      (∀ r : Row, r ∈ filteredRows t sel ↔
        (r ∈ t.rows ∧ r.year = sel.year ∧
          (sel.state ≠ ("All" : String) → r.state = sel.state))) ∧
      (∀ s v, (s, v) ∈ l ↔
        (s ∈ (filteredRows t sel).map Row.state ∧
          v = (((filteredRows t sel).filter (fun r => r.state == s)).map
            (fun r => r.getVal col)).sum)) ∧
      (l.map Prod.fst).Nodup ∧
      state_data exampleTable exampleSelection
        = Except.ok [("Maharashtra", (15 : Int))] := by
  refine ⟨groupSumByState (filteredRows t sel) col, ?_, ?_, ?_, ?_, ?_⟩
  · simp only [state_data, hcol]; rw [if_pos hmem]
  · intro r
    by_cases hst : sel.state = ("All" : String)
    · simp [filteredRows, hst, List.mem_filter, beq_iff_eq]
    · simp [filteredRows, hst, List.mem_filter, beq_iff_eq, and_assoc]
      tauto
  · intro s v; exact mem_groupSumByState
  · rw [map_fst_groupSumByState]; exact List.nodup_dedup _
  · decide

/-- C1 witness: the general theorem instantiated on the spec's worked
example. -/
theorem state_data_spec_witness :
    ∃ l, state_data exampleTable exampleSelection = Except.ok l ∧
      (∀ r : Row, r ∈ filteredRows exampleTable exampleSelection ↔
        (r ∈ exampleTable.rows ∧ r.year = exampleSelection.year ∧
          (exampleSelection.state ≠ ("All" : String) → r.state = exampleSelection.state))) ∧
      (∀ s v, (s, v) ∈ l ↔
        (s ∈ (filteredRows exampleTable exampleSelection).map Row.state ∧
          v = (((filteredRows exampleTable exampleSelection).filter
              (fun r => r.state == s)).map (fun r => r.getVal ("MURDER"))).sum)) ∧
      (l.map Prod.fst).Nodup ∧
      state_data exampleTable exampleSelection
        = Except.ok [("Maharashtra", (15 : Int))] :=
  state_data_spec exampleTable exampleSelection ("MURDER") (by decide) (by decide)

/-- C3: the values of `state_data` sum to the selected crime column summed
over the unified table restricted by the year filter and, when the state
is not `All`, the state filter. -/
theorem state_data_sum_consistency (t : Table) (sel : Selection) (col : String)
    (hcol : lookupCrimeCol sel.crimeType = some col) (hmem : col ∈ t.cols) :
    ∃ l, state_data t sel = Except.ok l ∧
      (l.map Prod.snd).sum = ((filteredRows t sel).map (fun r => r.getVal col)).sum := by
  refine ⟨groupSumByState (filteredRows t sel) col, ?_, sum_groupSumByState _ _⟩
  simp only [state_data, hcol]; rw [if_pos hmem]

/-- C3 witness: the consistency law instantiated on the worked example. -/
theorem state_data_sum_consistency_witness :
    ∃ l, state_data exampleTable exampleSelection = Except.ok l ∧
      (l.map Prod.snd).sum
        = ((filteredRows exampleTable exampleSelection).map
            (fun r => r.getVal ("MURDER"))).sum :=
  state_data_sum_consistency exampleTable exampleSelection ("MURDER") (by decide) (by decide)

/-- C6: when the filtering step keeps zero rows, `state_data` returns an
empty table and no error. -/
theorem state_data_empty_filter (t : Table) (sel : Selection) (col : String)
    (hcol : lookupCrimeCol sel.crimeType = some col) (hmem : col ∈ t.cols)
    (hempty : filteredRows t sel = []) :
    state_data t sel = Except.ok [] := by
  simp only [state_data, hcol]
  rw [if_pos hmem, hempty]
  rfl

/-- C6 witness: requesting the absent state `Nowhere` yields the empty
table. -/
theorem state_data_empty_filter_witness :
    state_data exampleTable nowhereSelection = Except.ok [] :=
  state_data_empty_filter exampleTable nowhereSelection ("MURDER")
    (by decide) (by decide) (by decide)

/-- C2: `yearly_data` gives equal results on two selections agreeing on the
crime type, and `category_data` gives equal results on any two selections:
both ignore the year and state filters, and `category_data` also ignores
the crime type. -/
theorem totals_ignore_filters (t : Table) (s1 s2 s3 : Selection)
    (h : s1.crimeType = s2.crimeType) :
    yearly_data t s1 = yearly_data t s2 ∧ category_data t s1 = category_data t s3 := by
  constructor
  · unfold yearly_data; rw [h]
  · rfl

/-- C2 witness: the invariance instantiated on selections differing in
year and state (and, for the category table, in crime type too). -/
theorem totals_ignore_filters_witness :
    yearly_data exampleTable exampleSelection
      = yearly_data exampleTable murder2001Selection ∧
    category_data exampleTable exampleSelection
      = category_data exampleTable theftSelection :=
  totals_ignore_filters exampleTable exampleSelection murder2001Selection theftSelection rfl

/-- C5: when the selected crime type's backing column is absent from the
table, every aggregation fails with `UnknownCrimeColumnError` instead of
returning a default result. -/
theorem aggregation_unknown_column (t : Table) (sel : Selection) (col : String)
    (hcol : lookupCrimeCol sel.crimeType = some col) (hmem : col ∉ t.cols) :
    state_data t sel = Except.error ("UnknownCrimeColumnError") ∧
    yearly_data t sel = Except.error ("UnknownCrimeColumnError") ∧
    category_data t sel = Except.error ("UnknownCrimeColumnError") := by
  have hpair : ∃ p, p ∈ crime_types ∧ p.2 = col := by
    unfold lookupCrimeCol at hcol
    rcases hfind : crime_types.find? (fun p => p.1 == sel.crimeType) with _ | p
    · rw [hfind] at hcol; simp at hcol
    · rw [hfind] at hcol; simp at hcol
      exact ⟨p, List.mem_of_find?_eq_some hfind, hcol⟩
  have hnot : ¬ ∀ p ∈ crime_types, p.2 ∈ t.cols := by
    intro hall
    rcases hpair with ⟨p, hp, hpc⟩
    exact hmem (hpc ▸ hall p hp)
  refine ⟨?_, ?_, ?_⟩
  · simp only [state_data, hcol]; rw [if_neg hmem]
  · simp only [yearly_data, hcol]; rw [if_neg hmem]
  · unfold category_data; rw [if_neg hnot]

/-- C5 witness: the error law instantiated on a table with no crime
columns. -/
theorem aggregation_unknown_column_witness :
    state_data noMurderTable exampleSelection = Except.error ("UnknownCrimeColumnError") ∧
    yearly_data noMurderTable exampleSelection = Except.error ("UnknownCrimeColumnError") ∧
    category_data noMurderTable exampleSelection = Except.error ("UnknownCrimeColumnError") :=
  aggregation_unknown_column noMurderTable exampleSelection ("MURDER") (by decide) (by decide)

/-- C9: with a selected state other than `All`, `state_data` has at most
one row, and any row it has carries exactly the selected state. -/
theorem state_data_single_state (t : Table) (sel : Selection) (col : String)
    (hcol : lookupCrimeCol sel.crimeType = some col) (hmem : col ∈ t.cols)
    (hst : sel.state ≠ ("All" : String)) :
    ∃ l, state_data t sel = Except.ok l ∧ l.length ≤ 1 ∧ ∀ p ∈ l, p.1 = sel.state := by
  have hall : ∀ x ∈ ((filteredRows t sel).map Row.state).dedup, x = sel.state := by
    intro x hx
    rcases List.mem_map.mp (List.mem_dedup.mp hx) with ⟨r, hr, rfl⟩
    unfold filteredRows at hr
    rw [if_pos hst] at hr
    have h2 := (List.mem_filter.mp hr).2
    simpa [beq_iff_eq] using h2
  refine ⟨groupSumByState (filteredRows t sel) col, ?_, ?_, ?_⟩
  · simp only [state_data, hcol]; rw [if_pos hmem]
  · have hlen := length_le_one_of_nodup_all_eq
      (List.nodup_dedup ((filteredRows t sel).map Row.state)) hall
    simpa [groupSumByState] using hlen
  · intro p hp
    rcases List.mem_map.mp hp with ⟨s, hs, hps⟩
    rw [← hps]
    exact hall s hs

/-- C9 witness: selecting Maharashtra yields at most one row, keyed by
Maharashtra. -/
theorem state_data_single_state_witness :
    ∃ l, state_data exampleTable mahaSelection = Except.ok l ∧ l.length ≤ 1 ∧
      ∀ p ∈ l, p.1 = mahaSelection.state :=
  state_data_single_state exampleTable mahaSelection ("MURDER")
    (by decide) (by decide) (by decide)

/-- C4: the loader concatenates the two sources preserving all rows (no
row dropped, no deduplication), keeps every integer year value unchanged,
and leaves no leading or trailing whitespace in the state and district
cells of any loaded row. -/
theorem load_data_preserves_and_trims (a b : List Row) :
    (load_data a b).length = a.length + b.length ∧
    (load_data a b).map Row.year = (a ++ b).map Row.year ∧
    ∀ r ∈ load_data a b, trimmed r.state = true ∧ trimmed r.district = true := by
  refine ⟨?_, ?_, ?_⟩
  · simp [load_data]
  · unfold load_data
    rw [List.map_map]
    rfl
  · intro r hr
    rcases List.mem_map.mp hr with ⟨r0, _, rfl⟩
    exact ⟨trimmed_pyStrip r0.state, trimmed_pyStrip r0.district⟩

/-- C4 witness: loading a concrete untrimmed row produces its trimmed
form, which the theorem certifies trimmed. -/
theorem load_data_preserves_and_trims_witness :
    wsRowLoaded ∈ load_data [wsRow] [mahaRow2] ∧
    (trimmed wsRowLoaded.state = true ∧ trimmed wsRowLoaded.district = true) :=
  ⟨by decide,
   (load_data_preserves_and_trims [wsRow] [mahaRow2]).2.2 wsRowLoaded (by decide)⟩

/-- C7: `category_data` sums each fixed crime column over the entire
unfiltered table independently and returns one row per crime category,
keyed by the human-readable label rather than the raw column name. -/
theorem category_data_labels (t : Table) (sel : Selection)
    (h : ∀ p ∈ crime_types, p.2 ∈ t.cols) :
    ∃ l, category_data t sel = Except.ok l ∧
      l.map Prod.fst = crime_types.map Prod.fst ∧
      ∀ lab c, (lab, c) ∈ crime_types →
        (lab, (t.rows.map (fun r => r.getVal c)).sum) ∈ l := by
  refine ⟨crime_types.map (fun p => (p.1, (t.rows.map (fun r => r.getVal p.2)).sum)),
    ?_, ?_, ?_⟩
  · unfold category_data; rw [if_pos h]
  · simp [crime_types]
  · intro lab c hmem
    exact List.mem_map.mpr ⟨(lab, c), hmem, rfl⟩

/-- C7 witness: the labelling law instantiated on the worked example. -/
theorem category_data_labels_witness :
    ∃ l, category_data exampleTable exampleSelection = Except.ok l ∧
      l.map Prod.fst = crime_types.map Prod.fst ∧
      ∀ lab c, (lab, c) ∈ crime_types →
        (lab, (exampleTable.rows.map (fun r => r.getVal c)).sum) ∈ l :=
  category_data_labels exampleTable exampleSelection (by decide)

/-- C8: the pipeline is deterministic: on equal inputs, loading and each of
the three aggregations produce equal outputs (every stage is a pure
function of the unified table and the selection). -/
theorem pipeline_deterministic (a1 a2 b1 b2 : List Row) (t1 t2 : Table) (s1 s2 : Selection)
    (ha : a1 = a2) (hb : b1 = b2) (ht : t1 = t2) (hs : s1 = s2) :
    load_data a1 b1 = load_data a2 b2 ∧
    state_data t1 s1 = state_data t2 s2 ∧
    yearly_data t1 s1 = yearly_data t2 s2 ∧
    category_data t1 s1 = category_data t2 s2 := by
  subst ha; subst hb; subst ht; subst hs
  exact ⟨rfl, rfl, rfl, rfl⟩

/-- C8 witness: determinism instantiated on the concrete example inputs. -/
theorem pipeline_deterministic_witness :
    load_data [wsRow] [mahaRow2] = load_data [wsRow] [mahaRow2] ∧
    state_data exampleTable exampleSelection = state_data exampleTable exampleSelection ∧
    yearly_data exampleTable exampleSelection = yearly_data exampleTable exampleSelection ∧
    category_data exampleTable exampleSelection = category_data exampleTable exampleSelection :=
  pipeline_deterministic [wsRow] [wsRow] [mahaRow2] [mahaRow2]
    exampleTable exampleTable exampleSelection exampleSelection rfl rfl rfl rfl

/-- C10: whenever the table carries all ten fixed crime columns,
`category_data` has exactly ten rows, keyed by the fixed labels in the
mapping's order, regardless of the table contents. -/
theorem category_data_fixed_rows (t : Table) (sel : Selection)
    (h : ∀ p ∈ crime_types, p.2 ∈ t.cols) :
    ∃ l, category_data t sel = Except.ok l ∧ l.length = 10 ∧
      l.map Prod.fst = ["Murder", "Rape", "Kidnapping & Abduction", "Robbery",
        "Burglary", "Theft", "Riots", "Dowry Deaths", "Assault on Women",
        "Cruelty by Husband"] := by
  refine ⟨crime_types.map (fun p => (p.1, (t.rows.map (fun r => r.getVal p.2)).sum)),
    ?_, ?_, ?_⟩
  · unfold category_data; rw [if_pos h]
  · simp [crime_types]
  · simp [crime_types]

/-- C10 witness: the fixed shape instantiated on the worked example. -/
theorem category_data_fixed_rows_witness :
    ∃ l, category_data exampleTable exampleSelection = Except.ok l ∧ l.length = 10 ∧
      l.map Prod.fst = ["Murder", "Rape", "Kidnapping & Abduction", "Robbery",
        "Burglary", "Theft", "Riots", "Dowry Deaths", "Assault on Women",
        "Cruelty by Husband"] :=
  category_data_fixed_rows exampleTable exampleSelection (by decide)

end CrimeDashboard
